import Mathlib

/-!
Verification of the natural-language spec of the aliyun-tts-proxy service
against its two source files.

The repository has two standalone variants of the same service:
  * Profile A (src/unnamed/part_000): DashScope CosyVoice WebSocket backend,
    bearer token in a header, 60 s timeout, 5000-char text bound, an explicit
    `isSettled` latch, a try/catch around control-message parsing, and a close
    handler.
  * Profile B (src/server.js): Aliyun NLS gateway backend, token in the URL,
    30 s timeout, 2000-char text bound, no settlement latch (it relies on
    ECMAScript promise semantics), no try/catch around parsing, and no close
    handler.

Both `synthesizeSpeech` functions are event-driven closures over a WebSocket.
We embed each as a pure step function on an explicit session state, driven by
the events the `ws` library can deliver (open, message with a binary or text
frame, error, close) plus the deadline-timer firing.  JSON parsing of an
incoming text frame is abstracted as `Option CtrlMsg`: `none` models a frame
that `JSON.parse` rejects (the parse throws), `some m` models a successfully
parsed object, with the only fields the handlers read (`header.event` /
`header.name` and the error-message field) carried as `Option String` so that
a missing `header` or missing field is representable.

Outgoing wire messages are modelled as literal JSON trees mirroring the
object literals in the source, so that field presence or absence is provable.

Byte buffers are lists of bytes (`List Nat`); `Buffer.concat` is
`List.flatten`.  JavaScript truthiness of the string-or-undefined values the
code tests with `!x` and `x || d` is modelled by `jsTruthy` / `jsOr` /
`jsOrOpt` (both `undefined` and the empty string are falsy).
-/

/-- A binary audio frame: a byte buffer. -/
abbrev Chunk := List Nat

/-- JSON trees, enough to mirror the object literals the source sends. -/
inductive Json where
  | null
  | str (s : String)
  | num (n : Int)
  | obj (fields : List (String × Json))

/-- Field lookup in a JSON object (none on non-objects or absent keys). -/
def Json.lookup (key : String) : Json → Option Json
  | .obj fields => fields.lookup key
  | _ => none

/-- JavaScript truthiness of a possibly-undefined string: `undefined` and the
empty string are falsy, every other string is truthy. -/
def jsTruthy : Option String → Bool
  | none => false
  | some s => !(s == "")

/-- JavaScript `s || d` on a string: the default is taken when `s` is empty. -/
def jsOr (s d : String) : String :=
  if s = "" then d else s

/-- JavaScript `s || d` on a possibly-undefined string. -/
def jsOrOpt (s : Option String) (d : String) : String :=
  match s with
  | none => d
  | some s => if s = "" then d else s

/-- JavaScript `a || b` on two possibly-undefined strings. -/
def jsOrOptOpt (a b : Option String) : Option String :=
  if jsTruthy a then a else b

/-- The settlement value of one `synthesizeSpeech` promise: the concatenated
audio buffer on resolve, an error message on reject. -/
abbrev Outcome := Except String Chunk

/-- ECMAScript promise semantics for the result cell: calling resolve or
reject on an already-settled promise is a no-op, so only the first
settlement is recorded. -/
def promiseSettle (cur : Option Outcome) (r : Outcome) : Option Outcome :=
  match cur with
  | some x => some x
  | none => some r

/-- A frame delivered by a message event: binary audio bytes, or a text
frame whose `JSON.parse` result is abstracted (`none` = the parse throws). -/
inductive Frame (M : Type) where
  | binary (chunk : Chunk)
  | text (parsed : Option M)

/-- The events that can reach one `synthesizeSpeech` session: the four
WebSocket events the source registers handlers for, plus the deadline
timer firing.  Per the concurrency model, event delivery is serialized. -/
inductive WsEvent (M : Type) where
  | opened
  | message (frame : Frame M)
  | error (msg : String)
  | close (code : Nat) (reason : String)
  | timerFire

namespace ProfileA

/-- The fields of a parsed DashScope control message that the handler in
src/unnamed/part_000 reads: `msg.header?.event` and
`msg.header?.error_message`. -/
structure CtrlMsg where
  event : Option String
  error_message : Option String

/-- The per-invocation inputs of `synthesizeSpeech` that the handlers close
over: the generated task id and the text/voice/model/format arguments. -/
structure Args where
  taskId : String
  text : String
  voice : String
  model : String
  format : String

/-- The mutable state of one profile-A session: the promise result cell, the
`isSettled` latch, the ordered `audioChunks` array, whether the deadline
timer is still pending, whether `ws.close()` / `ws.terminate()` was called,
and the control messages sent so far. -/
structure State where
  settled : Option Outcome
  isSettled : Bool
  audioChunks : List Chunk
  timerActive : Bool
  wsClosed : Bool
  wsTerminated : Bool
  sent : List Json

/-- Session state right after `synthesizeSpeech` set up the promise, the
empty chunk array, the latch, and armed the 60 s timer. -/
def init : State :=
  { settled := none, isSettled := false, audioChunks := [],
    timerActive := true, wsClosed := false, wsTerminated := false, sent := [] }

/-- The `setTimeout` duration of the profile-A deadline, in milliseconds. -/
def timeoutMs : Nat := 60000

/-- The rejection message of the profile-A deadline timer. -/
def timeoutMsg : String := "WebSocket 超时（60秒），请检查 DASHSCOPE_API_KEY 是否有效"

/-- The rejection message of the profile-A close handler, built from the
close code and reason exactly as the template literal does (an empty reason
buffer is falsy, giving the placeholder). -/
def closeFailMsg (code : Nat) (reason : String) : String :=
  "WebSocket 意外关闭，code: " ++ toString code ++ "，原因: " ++
    (if reason = "" then "未知" else reason)

/-- The `payload` object of the profile-A `run-task` start message,
mirroring the object literal in src/unnamed/part_000 field by field,
including the mandatory `input: {}` placeholder. -/
def runTaskPayload (voice model format : String) : Json :=
  Json.obj [
    ("task_group", Json.str "audio"),
    ("task", Json.str "tts"),
    ("function", Json.str "SpeechSynthesizer"),
    ("model", Json.str (jsOr model "cosyvoice-v3-flash")),
    ("parameters", Json.obj [
      ("text_type", Json.str "PlainText"),
      ("voice", Json.str (jsOr voice "longanyang")),
      ("format", Json.str (jsOr format "mp3")),
      ("sample_rate", Json.num 22050),
      ("volume", Json.num 50),
      ("rate", Json.num 1),
      ("pitch", Json.num 1)]),
    ("input", Json.obj [])]

/-- The profile-A `run-task` start message sent on the open event. -/
def runTaskMsg (a : Args) : Json :=
  Json.obj [
    ("header", Json.obj [
      ("action", Json.str "run-task"),
      ("task_id", Json.str a.taskId),
      ("streaming", Json.str "duplex")]),
    ("payload", runTaskPayload a.voice a.model a.format)]

/-- The profile-A `continue-task` message carrying the full input text. -/
def continueTaskMsg (a : Args) : Json :=
  Json.obj [
    ("header", Json.obj [
      ("action", Json.str "continue-task"),
      ("task_id", Json.str a.taskId),
      ("streaming", Json.str "duplex")]),
    ("payload", Json.obj [("input", Json.obj [("text", Json.str a.text)])])]

/-- The profile-A `finish-task` message, again with the `input: {}`
placeholder. -/
def finishTaskMsg (a : Args) : Json :=
  Json.obj [
    ("header", Json.obj [
      ("action", Json.str "finish-task"),
      ("task_id", Json.str a.taskId),
      ("streaming", Json.str "duplex")]),
    ("payload", Json.obj [("input", Json.obj [])])]

/-- One step of the profile-A `synthesizeSpeech` event handlers
(src/unnamed/part_000 lines 67-170), as a pure transition on the session
state:

  * open: send the `run-task` message;
  * binary message: append the chunk, in arrival order, to `audioChunks`;
  * text message that fails to parse: the throw is caught, logged, and the
    state is untouched;
  * `task-started`: send `continue-task` with the whole text, then
    `finish-task`;
  * `task-finished`: clear the timer, close the socket, and if the latch is
    down, settle with the concatenation of the chunks;
  * `task-failed`: clear the timer, close the socket, and if the latch is
    down, reject with the backend message or the generic one;
  * any other or missing event name (for example `result-generated`): ignore;
  * error event: clear the timer and, latch permitting, reject;
  * close event: clear the timer and, latch permitting, reject with the
    close code and reason;
  * timer firing: if the latch is down, terminate the socket and reject with
    the timeout message. -/
def synthesizeSpeechStep (a : Args) (st : State) : WsEvent CtrlMsg → State
  | .opened => { st with sent := st.sent ++ [runTaskMsg a] }
  | .message (.binary c) => { st with audioChunks := st.audioChunks ++ [c] }
  | .message (.text none) => st
  | .message (.text (some m)) =>
    match m.event with
    | some "task-started" =>
        { st with sent := st.sent ++ [continueTaskMsg a, finishTaskMsg a] }
    | some "task-finished" =>
        if st.isSettled then { st with timerActive := false, wsClosed := true }
        else { st with timerActive := false, wsClosed := true, isSettled := true,
                       settled := promiseSettle st.settled (.ok st.audioChunks.flatten) }
    | some "task-failed" =>
        if st.isSettled then { st with timerActive := false, wsClosed := true }
        else { st with timerActive := false, wsClosed := true, isSettled := true,
                       settled := promiseSettle st.settled
                         (.error (jsOrOpt m.error_message "语音合成失败")) }
    | _ => st
  | .error e =>
      if st.isSettled then { st with timerActive := false }
      else { st with timerActive := false, isSettled := true,
                     settled := promiseSettle st.settled (.error ("WebSocket 错误: " ++ e)) }
  | .close code reason =>
      if st.isSettled then { st with timerActive := false }
      else { st with timerActive := false, isSettled := true,
                     settled := promiseSettle st.settled (.error (closeFailMsg code reason)) }
  | .timerFire =>
      if st.isSettled then { st with timerActive := false }
      else { st with timerActive := false, isSettled := true, wsTerminated := true,
                     settled := promiseSettle st.settled (.error timeoutMsg) }

/-- A profile-A session run over a serialized trace of events. -/
def synthesizeSpeechRun (a : Args) (st : State) (tr : List (WsEvent CtrlMsg)) : State :=
  tr.foldl (synthesizeSpeechStep a) st

/-- The outcome of the pre-connection phase of profile-A `synthesizeSpeech`:
either the promise is rejected for a missing credential before any
WebSocket is constructed, or a connection is opened with the resolved key. -/
inductive SynthInit where
  | rejectedNoKey (msg : String)
  | connecting (apiKey : String)

/-- The credential check at the top of profile-A `synthesizeSpeech`
(src/unnamed/part_000 lines 40-42): `userApiKey || process.env.DASHSCOPE_API_KEY`,
rejecting before `new WebSocket(...)` when the result is falsy. -/
def synthInit (userApiKey envKey : Option String) : SynthInit :=
  let apiKey := jsOrOptOpt userApiKey envKey
  if jsTruthy apiKey then .connecting (jsOrOpt apiKey "")
  else .rejectedNoKey "缺少 apikey 参数，且未设置 DASHSCOPE_API_KEY 环境变量"

end ProfileA

namespace ProfileB

/-- The fields of a parsed NLS control message that the handler in
src/server.js reads: `msg.header?.name` and `msg.header?.status_message`. -/
structure CtrlMsg where
  name : Option String
  status_message : Option String

/-- The per-invocation inputs of profile-B `synthesizeSpeech` that the
handlers close over.  `generateId()` draws fresh random message ids; their
values are irrelevant to every claim, so one `messageId` parameter stands
for the ids used in the sends. -/
structure Args where
  messageId : String
  taskId : String
  appkey : String
  text : String
  voice : String
  format : String

/-- The mutable state of one profile-B session.  There is no `isSettled`
latch in src/server.js; `settled` is the promise result cell alone.
`uncaught` records an exception escaping an event handler (src/server.js
has no try/catch around `JSON.parse`, so a malformed frame throws out of
the message listener; in Node this is an uncaught exception, not a normal
continuation). -/
structure State where
  settled : Option Outcome
  audioChunks : List Chunk
  timerActive : Bool
  wsClosed : Bool
  wsTerminated : Bool
  sent : List Json
  uncaught : Option String

/-- Session state right after profile-B `synthesizeSpeech` armed the 30 s
timer. -/
def init : State :=
  { settled := none, audioChunks := [], timerActive := true,
    wsClosed := false, wsTerminated := false, sent := [], uncaught := none }

/-- The `setTimeout` duration of the profile-B deadline, in milliseconds. -/
def timeoutMs : Nat := 30000

/-- The rejection message of the profile-B deadline timer. -/
def timeoutMsg : String := "WebSocket 超时，请检查配置"

/-- The `payload` object of the profile-B `StartSynthesis` message,
mirroring the object literal in src/server.js field by field.  Note it has
no `input` field. -/
def startSynthesisPayload (voice format : String) : Json :=
  Json.obj [
    ("voice", Json.str (jsOr voice "longxiaochun")),
    ("format", Json.str (jsOr format "mp3")),
    ("sample_rate", Json.num 16000),
    ("volume", Json.num 50),
    ("speech_rate", Json.num 0),
    ("pitch_rate", Json.num 0)]

/-- The profile-B `StartSynthesis` message sent on the open event. -/
def startSynthesisMsg (b : Args) : Json :=
  Json.obj [
    ("header", Json.obj [
      ("message_id", Json.str b.messageId),
      ("task_id", Json.str b.taskId),
      ("namespace", Json.str "FlowingSpeechSynthesizer"),
      ("name", Json.str "StartSynthesis"),
      ("appkey", Json.str b.appkey)]),
    ("payload", startSynthesisPayload b.voice b.format)]

/-- The profile-B `RunSynthesis` message carrying the full input text. -/
def runSynthesisMsg (b : Args) : Json :=
  Json.obj [
    ("header", Json.obj [
      ("message_id", Json.str b.messageId),
      ("task_id", Json.str b.taskId),
      ("namespace", Json.str "FlowingSpeechSynthesizer"),
      ("name", Json.str "RunSynthesis"),
      ("appkey", Json.str b.appkey)]),
    ("payload", Json.obj [("text", Json.str b.text)])]

/-- The profile-B `StopSynthesis` message (header only, no payload). -/
def stopSynthesisMsg (b : Args) : Json :=
  Json.obj [
    ("header", Json.obj [
      ("message_id", Json.str b.messageId),
      ("task_id", Json.str b.taskId),
      ("namespace", Json.str "FlowingSpeechSynthesizer"),
      ("name", Json.str "StopSynthesis"),
      ("appkey", Json.str b.appkey)])]

/-- One step of the profile-B `synthesizeSpeech` event handlers
(src/server.js lines 105-175), as a pure transition on the session state:

  * open: send `StartSynthesis`;
  * binary message: append the chunk, in arrival order, to `audioChunks`;
  * text message that fails to parse: `JSON.parse` throws and nothing
    catches it — the exception escapes the listener (recorded in
    `uncaught`, keeping the first such exception);
  * `SynthesisStarted`: send `RunSynthesis` with the whole text, then
    `StopSynthesis`;
  * `SynthesisCompleted`: clear the timer, close the socket, resolve with
    the concatenation of the chunks;
  * `TaskFailed`: clear the timer, close the socket, reject with
    `status_message` or the generic message;
  * any other or missing name: ignore;
  * error event: clear the timer and reject with the error;
  * close event: src/server.js registers no close handler — nothing happens;
  * timer firing: terminate the socket and reject with the timeout message.

Resolve/reject are unguarded here; `promiseSettle` supplies the
at-most-once behaviour of the ECMAScript promise itself. -/
def synthesizeSpeechStep (b : Args) (st : State) : WsEvent CtrlMsg → State
  | .opened => { st with sent := st.sent ++ [startSynthesisMsg b] }
  | .message (.binary c) => { st with audioChunks := st.audioChunks ++ [c] }
  | .message (.text none) =>
      { st with uncaught :=
          match st.uncaught with
          | some e => some e
          | none => some "SyntaxError: JSON.parse failed in message listener" }
  | .message (.text (some m)) =>
    match m.name with
    | some "SynthesisStarted" =>
        { st with sent := st.sent ++ [runSynthesisMsg b, stopSynthesisMsg b] }
    | some "SynthesisCompleted" =>
        { st with timerActive := false, wsClosed := true,
                  settled := promiseSettle st.settled (.ok st.audioChunks.flatten) }
    | some "TaskFailed" =>
        { st with timerActive := false, wsClosed := true,
                  settled := promiseSettle st.settled
                    (.error (jsOrOpt m.status_message "语音合成失败")) }
    | _ => st
  | .error e =>
      { st with timerActive := false,
                settled := promiseSettle st.settled (.error e) }
  | .close _ _ => st
  | .timerFire =>
      { st with timerActive := false, wsTerminated := true,
                settled := promiseSettle st.settled (.error timeoutMsg) }

/-- A profile-B session run over a serialized trace of events. -/
def synthesizeSpeechRun (b : Args) (st : State) (tr : List (WsEvent CtrlMsg)) : State :=
  tr.foldl (synthesizeSpeechStep b) st

/-- The profile-B token cache (src/server.js `tokenCache`). -/
structure TokenCache where
  id : Option String
  expireTime : Int

/-- What the token-exchange HTTP call would answer if issued: the parsed
body has a `Token` (id plus expiry in epoch seconds), or parses without
one, or does not parse as JSON at all. -/
inductive TokenResp where
  | token (id : String) (expireTimeSec : Int)
  | noToken (message : Option String) (raw : String)
  | unparseable (raw : String)

/-- `getNlsToken` of src/server.js, with time and the network answer made
explicit: if the cache holds a truthy id and `now` is before the cached
expiry, the cached id is returned with no refresh call; otherwise the
signed CreateToken request is issued (the returned `Bool` is true exactly
when this network call happens) and, on success, the cache is overwritten
with the new id and an expiry set one minute early
(`ExpireTime * 1000 - 60000`). -/
def getNlsToken (cache : TokenCache) (now : Int) (resp : TokenResp) :
    Except String (String × TokenCache × Bool) :=
  if jsTruthy cache.id ∧ now < cache.expireTime then
    .ok (jsOrOpt cache.id "", cache, false)
  else
    match resp with
    | .token tid exp =>
        .ok (tid, { id := some tid, expireTime := exp * 1000 - 60000 }, true)
    | .noToken m raw => .error (jsOrOpt m ("获取Token失败: " ++ raw))
    | .unparseable raw => .error ("解析Token响应失败: " ++ raw)

end ProfileB

/-- The HTTP answer of the `/api/tts` route, restricted to the fields the
claims are about. -/
structure HttpResp where
  status : Nat
  success : Bool
  error : Option String

namespace ProfileA

/-- The profile-A `/api/tts` route handler (src/unnamed/part_000 lines
183-235) up to the synthesis result, with the synthesis call abstracted as
a function.  The second component counts the outbound network connections
the synthesis path opens (the WebSocket; the out-of-scope storage upload is
not modelled).  A falsy `text` (absent or empty) and a `text` over 5000
characters are both answered 400 before `synthesizeSpeech` is invoked. -/
def apiTts (text : Option String) (synth : String → Except String Chunk) :
    HttpResp × Nat :=
  if !(jsTruthy text) then
    ({ status := 400, success := false, error := some "缺少 text 参数" }, 0)
  else if (jsOrOpt text "").length > 5000 then
    ({ status := 400, success := false, error := some "文本超过5000字符限制" }, 0)
  else
    match synth (jsOrOpt text "") with
    | .ok _ => ({ status := 200, success := true, error := none }, 1)
    | .error e => ({ status := 500, success := false, error := some e }, 1)

end ProfileA

namespace ProfileB

/-- The profile-B `/api/tts` route handler (src/server.js lines 183-232) up
to the synthesis result.  The second component counts outbound network
calls: the CreateToken HTTP request, then the WebSocket connection.
Validation (falsy `text`, or over 2000 characters) answers 400 before
either call is made. -/
def apiTts (text : Option String) (tokenResult : Except String String)
    (synth : String → String → Except String Chunk) : HttpResp × Nat :=
  if !(jsTruthy text) then
    ({ status := 400, success := false, error := some "缺少 text 参数" }, 0)
  else if (jsOrOpt text "").length > 2000 then
    ({ status := 400, success := false, error := some "文本超过2000字符限制" }, 0)
  else
    match tokenResult with
    | .error e => ({ status := 500, success := false, error := some e }, 1)
    | .ok token =>
      match synth (jsOrOpt text "") token with
      | .ok _ => ({ status := 200, success := true, error := none }, 2)
      | .error e => ({ status := 500, success := false, error := some e }, 2)

end ProfileB

/-- Concrete profile-A arguments used in witnesses. -/
def argsExA : ProfileA.Args :=
  { taskId := "tid0", text := "你好", voice := "", model := "", format := "" }

/-- Concrete profile-B arguments used in witnesses. -/
def argsExB : ProfileB.Args :=
  { messageId := "mid0", taskId := "tid0", appkey := "ak", text := "你好",
    voice := "", format := "" }

/-- `promiseSettle` never overwrites an existing settlement. -/
theorem promiseSettle_of_some (cur : Option Outcome) (r x : Outcome)
    (h : cur = some r) : promiseSettle cur x = some r := by
  subst h; rfl

/-- One profile-A step never changes an already-settled promise result. -/
theorem ProfileA.stepA_settled_mono (a : Args) (st : State) (e : WsEvent CtrlMsg)
    (r : Outcome) (h : st.settled = some r) :
    (synthesizeSpeechStep a st e).settled = some r := by
  cases e with
  | opened => simpa [synthesizeSpeechStep] using h
  | message f =>
    cases f with
    | binary c => simpa [synthesizeSpeechStep] using h
    | text p =>
      cases p with
      | none => simpa [synthesizeSpeechStep] using h
      | some m =>
        simp only [synthesizeSpeechStep]
        split
        · simpa using h
        · split
          · simpa using h
          · simpa using promiseSettle_of_some _ r _ h
        · split
          · simpa using h
          · simpa using promiseSettle_of_some _ r _ h
        · simpa using h
  | error e =>
    simp only [synthesizeSpeechStep]
    split
    · simpa using h
    · simpa using promiseSettle_of_some _ r _ h
  | close code reason =>
    simp only [synthesizeSpeechStep]
    split
    · simpa using h
    · simpa using promiseSettle_of_some _ r _ h
  | timerFire =>
    simp only [synthesizeSpeechStep]
    split
    · simpa using h
    · simpa using promiseSettle_of_some _ r _ h

/-- One profile-B step never changes an already-settled promise result
(here the only guard is the promise itself). -/
theorem ProfileB.stepB_settled_mono (b : Args) (st : State) (e : WsEvent CtrlMsg)
    (r : Outcome) (h : st.settled = some r) :
    (synthesizeSpeechStep b st e).settled = some r := by
  cases e with
  | opened => simpa [synthesizeSpeechStep] using h
  | message f =>
    cases f with
    | binary c => simpa [synthesizeSpeechStep] using h
    | text p =>
      cases p with
      | none => simpa [synthesizeSpeechStep] using h
      | some m =>
        simp only [synthesizeSpeechStep]
        split
        · simpa using h
        · simpa using promiseSettle_of_some _ r _ h
        · simpa using promiseSettle_of_some _ r _ h
        · simpa using h
  | error e => simpa [synthesizeSpeechStep] using promiseSettle_of_some _ r _ h
  | close code reason => simpa [synthesizeSpeechStep] using h
  | timerFire => simpa [synthesizeSpeechStep] using promiseSettle_of_some _ r _ h

/-- A profile-A run from an already-settled state keeps the settlement. -/
theorem ProfileA.runA_settled_mono (a : Args) (tr : List (WsEvent CtrlMsg))
    (st : State) (r : Outcome) (h : st.settled = some r) :
    (synthesizeSpeechRun a st tr).settled = some r := by
  induction tr generalizing st with
  | nil => simpa [synthesizeSpeechRun] using h
  | cons e tr ih =>
    simp only [synthesizeSpeechRun, List.foldl_cons]
    exact ih (synthesizeSpeechStep a st e) (stepA_settled_mono a st e r h)

/-- A profile-B run from an already-settled state keeps the settlement. -/
theorem ProfileB.runB_settled_mono (b : Args) (tr : List (WsEvent CtrlMsg))
    (st : State) (r : Outcome) (h : st.settled = some r) :
    (synthesizeSpeechRun b st tr).settled = some r := by
  induction tr generalizing st with
  | nil => simpa [synthesizeSpeechRun] using h
  | cons e tr ih =>
    simp only [synthesizeSpeechRun, List.foldl_cons]
    exact ih (synthesizeSpeechStep b st e) (stepB_settled_mono b st e r h)

/-- Runs compose over trace concatenation. -/
theorem ProfileA.runA_append (a : Args) (st : State)
    (t1 t2 : List (WsEvent CtrlMsg)) :
    synthesizeSpeechRun a st (t1 ++ t2)
      = synthesizeSpeechRun a (synthesizeSpeechRun a st t1) t2 := by
  simp [synthesizeSpeechRun, List.foldl_append]

/-- Runs compose over trace concatenation. -/
theorem ProfileB.runB_append (b : Args) (st : State)
    (t1 t2 : List (WsEvent CtrlMsg)) :
    synthesizeSpeechRun b st (t1 ++ t2)
      = synthesizeSpeechRun b (synthesizeSpeechRun b st t1) t2 := by
  simp [synthesizeSpeechRun, List.foldl_append]

/-- C1: in both profiles, once a synthesis invocation has settled, no later
event — completion, failure, transport error, close, or the timer — can
produce a second settlement or change the recorded outcome: along every
extension of the event trace the promise result stays exactly the first
settlement.  Profile A enforces this with its `isSettled` latch; profile B
gets it from ECMAScript promise semantics (`promiseSettle`). -/
theorem synthesizeSpeech_settles_at_most_once :
    (∀ (a : ProfileA.Args) (tr tr2 : List (WsEvent ProfileA.CtrlMsg)) (r : Outcome),
       (ProfileA.synthesizeSpeechRun a ProfileA.init tr).settled = some r →
       (ProfileA.synthesizeSpeechRun a ProfileA.init (tr ++ tr2)).settled = some r) ∧
    (∀ (b : ProfileB.Args) (tr tr2 : List (WsEvent ProfileB.CtrlMsg)) (r : Outcome),
       (ProfileB.synthesizeSpeechRun b ProfileB.init tr).settled = some r →
       (ProfileB.synthesizeSpeechRun b ProfileB.init (tr ++ tr2)).settled = some r) := by
  constructor
  · intro a tr tr2 r h
    rw [ProfileA.runA_append]
    exact ProfileA.runA_settled_mono a tr2 _ r h
  · intro b tr tr2 r h
    rw [ProfileB.runB_append]
    exact ProfileB.runB_settled_mono b tr2 _ r h

/-- Witness for C1: a session that completed with an empty buffer keeps that
settlement across a subsequent close, transport error, and timer firing, in
both profiles. -/
theorem synthesizeSpeech_settles_at_most_once_witness :
    (ProfileA.synthesizeSpeechRun argsExA ProfileA.init
       ([.message (.text (some ⟨some "task-finished", none⟩))]
         ++ [.close 1006 "", .error "boom", .timerFire])).settled
      = some (.ok [])
    ∧ (ProfileB.synthesizeSpeechRun argsExB ProfileB.init
       ([.message (.text (some ⟨some "SynthesisCompleted", none⟩))]
         ++ [.error "boom", .timerFire])).settled
      = some (.ok []) :=
  ⟨synthesizeSpeech_settles_at_most_once.1 argsExA
     [.message (.text (some ⟨some "task-finished", none⟩))]
     [.close 1006 "", .error "boom", .timerFire] (.ok []) rfl,
   synthesizeSpeech_settles_at_most_once.2 argsExB
     [.message (.text (some ⟨some "SynthesisCompleted", none⟩))]
     [.error "boom", .timerFire] (.ok []) rfl⟩

/-- Binary frames only ever append to the chunk list. -/
theorem ProfileA.runA_binary_appends (a : Args) (cs : List Chunk) (st : State) :
    synthesizeSpeechRun a st (cs.map fun c => WsEvent.message (Frame.binary c))
      = { st with audioChunks := st.audioChunks ++ cs } := by
  induction cs generalizing st with
  | nil => simp [synthesizeSpeechRun]
  | cons c cs ih =>
    simp only [List.map_cons, synthesizeSpeechRun, List.foldl_cons] at ih ⊢
    rw [show synthesizeSpeechStep a st (.message (.binary c))
          = { st with audioChunks := st.audioChunks ++ [c] } from rfl, ih]
    simp

/-- Binary frames only ever append to the chunk list. -/
theorem ProfileB.runB_binary_appends (b : Args) (cs : List Chunk) (st : State) :
    synthesizeSpeechRun b st (cs.map fun c => WsEvent.message (Frame.binary c))
      = { st with audioChunks := st.audioChunks ++ cs } := by
  induction cs generalizing st with
  | nil => simp [synthesizeSpeechRun]
  | cons c cs ih =>
    simp only [List.map_cons, synthesizeSpeechRun, List.foldl_cons] at ih ⊢
    rw [show synthesizeSpeechStep b st (.message (.binary c))
          = { st with audioChunks := st.audioChunks ++ [c] } from rfl, ih]
    simp

/-- C2: in both profiles, every binary frame is appended to the chunk list
in arrival order (none dropped, reordered, or duplicated), and a session in
which exactly the frames `cs` arrive between the handshake and the terminal
completion event resolves with exactly their concatenation
`Buffer.concat cs = cs.flatten`. -/
theorem audio_result_is_ordered_concatenation :
    (∀ (a : ProfileA.Args) (st : ProfileA.State) (c : Chunk),
       (ProfileA.synthesizeSpeechStep a st (.message (.binary c))).audioChunks
         = st.audioChunks ++ [c]) ∧
    (∀ (a : ProfileA.Args) (cs : List Chunk),
       (ProfileA.synthesizeSpeechRun a ProfileA.init
          ([.opened, .message (.text (some ⟨some "task-started", none⟩))]
            ++ (cs.map fun c => .message (.binary c))
            ++ [.message (.text (some ⟨some "task-finished", none⟩))])).settled
         = some (.ok cs.flatten)) ∧
    (∀ (b : ProfileB.Args) (st : ProfileB.State) (c : Chunk),
       (ProfileB.synthesizeSpeechStep b st (.message (.binary c))).audioChunks
         = st.audioChunks ++ [c]) ∧
    (∀ (b : ProfileB.Args) (cs : List Chunk),
       (ProfileB.synthesizeSpeechRun b ProfileB.init
          ([.opened, .message (.text (some ⟨some "SynthesisStarted", none⟩))]
            ++ (cs.map fun c => .message (.binary c))
            ++ [.message (.text (some ⟨some "SynthesisCompleted", none⟩))])).settled
         = some (.ok cs.flatten)) := by
  refine ⟨fun a st c => rfl, fun a cs => ?_, fun b st c => rfl, fun b cs => ?_⟩
  · rw [ProfileA.runA_append, ProfileA.runA_append, ProfileA.runA_binary_appends]
    simp [ProfileA.synthesizeSpeechRun, ProfileA.synthesizeSpeechStep,
      ProfileA.init, promiseSettle]
  · rw [ProfileB.runB_append, ProfileB.runB_append, ProfileB.runB_binary_appends]
    simp [ProfileB.synthesizeSpeechRun, ProfileB.synthesizeSpeechStep,
      ProfileB.init, promiseSettle]

/-- C3 counterexample: in profile B (src/server.js) the message listener has
no try/catch, so a text frame that `JSON.parse` rejects throws out of the
handler — it is not logged-and-ignored.  Concretely, delivering an
unparseable text frame to a fresh session leaves an uncaught exception. -/
theorem malformed_frame_throws_in_profileB :
    (ProfileB.synthesizeSpeechStep argsExB ProfileB.init
       (.message (.text none))).uncaught
      = some "SyntaxError: JSON.parse failed in message listener" := rfl

/-- C3 amended: in profile A a text frame that fails to parse is caught,
logged, and ignored — the session state is completely unchanged, so only
terminal events or infrastructure failures can end the session.  In
profile B, by contrast, the parse failure escapes the message listener as
an uncaught exception; it does not settle the session either. -/
theorem malformed_frame_ignored_in_profileA :
    (∀ (a : ProfileA.Args) (st : ProfileA.State),
       ProfileA.synthesizeSpeechStep a st (.message (.text none)) = st) ∧
    (∀ (b : ProfileB.Args) (st : ProfileB.State),
       (ProfileB.synthesizeSpeechStep b st (.message (.text none))).uncaught.isSome
         = true ∧
       (ProfileB.synthesizeSpeechStep b st (.message (.text none))).settled
         = st.settled) := by
  refine ⟨fun a st => rfl, fun b st => ⟨?_, rfl⟩⟩
  simp only [ProfileB.synthesizeSpeechStep]
  cases h : st.uncaught <;> simp [h]

/-- C4 counterexample: profile B (src/server.js) registers no close
handler, so a connection that closes without a preceding terminal control
event does not settle the promise at all — there is no Failure carrying
the close code and reason.  Concretely, a close with code 1006 on a fresh
session leaves the promise pending. -/
theorem close_without_terminal_event_pending_in_profileB :
    (ProfileB.synthesizeSpeechStep argsExB ProfileB.init
       (.close 1006 "")).settled = none := rfl

/-- C4 amended: in profile A, an unexpected close on an unsettled session
rejects with a Failure built from the close code and reason, and an error
event rejects with a Failure describing the transport error.  In profile B
the error event also rejects with the transport error, but there is no
close handler at all: a close event leaves the session state untouched, so
an unexpected close never settles the promise directly (only the 30 s
timer eventually does). -/
theorem connection_event_failures :
    (∀ (a : ProfileA.Args) (st : ProfileA.State) (code : Nat) (reason : String),
       st.isSettled = false → st.settled = none →
       (ProfileA.synthesizeSpeechStep a st (.close code reason)).settled
         = some (.error (ProfileA.closeFailMsg code reason))) ∧
    (∀ (a : ProfileA.Args) (st : ProfileA.State) (e : String),
       st.isSettled = false → st.settled = none →
       (ProfileA.synthesizeSpeechStep a st (.error e)).settled
         = some (.error ("WebSocket 错误: " ++ e))) ∧
    (∀ (b : ProfileB.Args) (st : ProfileB.State) (e : String),
       st.settled = none →
       (ProfileB.synthesizeSpeechStep b st (.error e)).settled
         = some (.error e)) ∧
    (∀ (b : ProfileB.Args) (st : ProfileB.State) (code : Nat) (reason : String),
       ProfileB.synthesizeSpeechStep b st (.close code reason) = st) := by
  refine ⟨fun a st code reason h1 h2 => ?_, fun a st e h1 h2 => ?_,
    fun b st e h2 => ?_, fun b st code reason => rfl⟩
  · simp [ProfileA.synthesizeSpeechStep, h1, h2, promiseSettle]
  · simp [ProfileA.synthesizeSpeechStep, h1, h2, promiseSettle]
  · simp [ProfileB.synthesizeSpeechStep, h2, promiseSettle]

/-- Witness for C4 at a fresh session: close code 1006 with an empty reason
buffer gives the placeholder reason, and transport errors reject in both
profiles. -/
theorem connection_event_failures_witness :
    (ProfileA.synthesizeSpeechStep argsExA ProfileA.init (.close 1006 "")).settled
      = some (.error "WebSocket 意外关闭，code: 1006，原因: 未知")
    ∧ (ProfileA.synthesizeSpeechStep argsExA ProfileA.init (.error "ECONNRESET")).settled
      = some (.error "WebSocket 错误: ECONNRESET")
    ∧ (ProfileB.synthesizeSpeechStep argsExB ProfileB.init (.error "ECONNRESET")).settled
      = some (.error "ECONNRESET") :=
  ⟨connection_event_failures.1 argsExA ProfileA.init 1006 "" rfl rfl,
   connection_event_failures.2.1 argsExA ProfileA.init "ECONNRESET" rfl rfl,
   connection_event_failures.2.2.1 argsExB ProfileB.init "ECONNRESET" rfl⟩

/-- Each profile-A step either leaves the timer cleared or leaves the
promise result untouched. -/
theorem ProfileA.stepA_timer_cleared_or_settled_unchanged (a : Args) (st : State)
    (e : WsEvent CtrlMsg) :
    (synthesizeSpeechStep a st e).timerActive = false ∨
    (synthesizeSpeechStep a st e).settled = st.settled := by
  cases e with
  | opened => exact Or.inr rfl
  | message f =>
    cases f with
    | binary c => exact Or.inr rfl
    | text p =>
      cases p with
      | none => exact Or.inr rfl
      | some m =>
        simp only [synthesizeSpeechStep]
        split
        · exact Or.inr rfl
        · split
          · exact Or.inl rfl
          · exact Or.inl rfl
        · split
          · exact Or.inl rfl
          · exact Or.inl rfl
        · exact Or.inr rfl
  | error e =>
    simp only [synthesizeSpeechStep]
    split
    · exact Or.inl rfl
    · exact Or.inl rfl
  | close code reason =>
    simp only [synthesizeSpeechStep]
    split
    · exact Or.inl rfl
    · exact Or.inl rfl
  | timerFire =>
    simp only [synthesizeSpeechStep]
    split
    · exact Or.inl rfl
    · exact Or.inl rfl

/-- Each profile-B step either leaves the timer cleared or leaves the
promise result untouched. -/
theorem ProfileB.stepB_timer_cleared_or_settled_unchanged (b : Args) (st : State)
    (e : WsEvent CtrlMsg) :
    (synthesizeSpeechStep b st e).timerActive = false ∨
    (synthesizeSpeechStep b st e).settled = st.settled := by
  cases e with
  | opened => exact Or.inr rfl
  | message f =>
    cases f with
    | binary c => exact Or.inr rfl
    | text p =>
      cases p with
      | none => exact Or.inr rfl
      | some m =>
        simp only [synthesizeSpeechStep]
        split
        · exact Or.inr rfl
        · exact Or.inl rfl
        · exact Or.inl rfl
        · exact Or.inr rfl
  | error e => exact Or.inl rfl
  | close code reason => exact Or.inr rfl
  | timerFire => exact Or.inl rfl

/-- C5: the deadline is 60000 ms in profile A and 30000 ms in profile B;
when the timer fires on a session with no prior terminal settlement, the
socket is forcibly terminated and the promise rejects with the timeout
message, the timer pending no longer; and every event whose step settles a
previously unsettled session also clears the deadline timer in that same
step. -/
theorem timeout_and_timer_cancellation :
    (ProfileA.timeoutMs = 60000 ∧ ProfileB.timeoutMs = 30000) ∧
    (∀ (a : ProfileA.Args) (st : ProfileA.State),
       st.isSettled = false → st.settled = none →
       (ProfileA.synthesizeSpeechStep a st .timerFire).settled
         = some (.error ProfileA.timeoutMsg) ∧
       (ProfileA.synthesizeSpeechStep a st .timerFire).wsTerminated = true ∧
       (ProfileA.synthesizeSpeechStep a st .timerFire).timerActive = false) ∧
    (∀ (b : ProfileB.Args) (st : ProfileB.State),
       st.settled = none →
       (ProfileB.synthesizeSpeechStep b st .timerFire).settled
         = some (.error ProfileB.timeoutMsg) ∧
       (ProfileB.synthesizeSpeechStep b st .timerFire).wsTerminated = true ∧
       (ProfileB.synthesizeSpeechStep b st .timerFire).timerActive = false) ∧
    (∀ (a : ProfileA.Args) (st : ProfileA.State) (e : WsEvent ProfileA.CtrlMsg),
       st.settled = none → (ProfileA.synthesizeSpeechStep a st e).settled ≠ none →
       (ProfileA.synthesizeSpeechStep a st e).timerActive = false) ∧
    (∀ (b : ProfileB.Args) (st : ProfileB.State) (e : WsEvent ProfileB.CtrlMsg),
       st.settled = none → (ProfileB.synthesizeSpeechStep b st e).settled ≠ none →
       (ProfileB.synthesizeSpeechStep b st e).timerActive = false) := by
  refine ⟨⟨rfl, rfl⟩, fun a st h1 h2 => ?_, fun b st h2 => ?_,
    fun a st e h2 hne => ?_, fun b st e h2 hne => ?_⟩
  · simp [ProfileA.synthesizeSpeechStep, h1, h2, promiseSettle]
  · simp [ProfileB.synthesizeSpeechStep, h2, promiseSettle]
  · rcases ProfileA.stepA_timer_cleared_or_settled_unchanged a st e with h | h
    · exact h
    · rw [h, h2] at hne
      exact absurd rfl hne
  · rcases ProfileB.stepB_timer_cleared_or_settled_unchanged b st e with h | h
    · exact h
    · rw [h, h2] at hne
      exact absurd rfl hne

/-- Witness for C5 at a fresh session: the timer firing terminates and
rejects in both profiles, and a completion event clears the timer in the
step that settles. -/
theorem timeout_and_timer_cancellation_witness :
    (ProfileA.synthesizeSpeechStep argsExA ProfileA.init .timerFire).settled
      = some (.error ProfileA.timeoutMsg)
    ∧ (ProfileB.synthesizeSpeechStep argsExB ProfileB.init .timerFire).settled
      = some (.error ProfileB.timeoutMsg)
    ∧ (ProfileA.synthesizeSpeechStep argsExA ProfileA.init
         (.message (.text (some ⟨some "task-finished", none⟩)))).timerActive = false :=
  ⟨(timeout_and_timer_cancellation.2.1 argsExA ProfileA.init rfl rfl).1,
   (timeout_and_timer_cancellation.2.2.1 argsExB ProfileB.init rfl).1,
   timeout_and_timer_cancellation.2.2.2.1 argsExA ProfileA.init
     (.message (.text (some ⟨some "task-finished", none⟩))) rfl
     (fun h => Option.noConfusion h)⟩

/-- C6: in both profiles, a request whose `text` is falsy (absent or empty)
or over the profile's length bound (5000 characters in profile A, 2000 in
profile B) is answered 400 by the route handler with zero outbound network
calls — neither the WebSocket connection nor, in profile B, the CreateToken
request is made. -/
theorem oversized_or_missing_text_rejected_without_network :
    (∀ (text : Option String) (synth : String → Except String Chunk),
       (jsTruthy text = false ∨ (jsOrOpt text "").length > 5000) →
       (ProfileA.apiTts text synth).1.status = 400 ∧
       (ProfileA.apiTts text synth).1.success = false ∧
       (ProfileA.apiTts text synth).2 = 0) ∧
    (∀ (text : Option String) (tok : Except String String)
       (synth : String → String → Except String Chunk),
       (jsTruthy text = false ∨ (jsOrOpt text "").length > 2000) →
       (ProfileB.apiTts text tok synth).1.status = 400 ∧
       (ProfileB.apiTts text tok synth).1.success = false ∧
       (ProfileB.apiTts text tok synth).2 = 0) := by
  constructor
  · intro text synth h
    rcases h with h | h
    · simp [ProfileA.apiTts, h]
    · by_cases ht : jsTruthy text
      · simp [ProfileA.apiTts, ht, h]
      · simp [ProfileA.apiTts, ht]
  · intro text tok synth h
    rcases h with h | h
    · simp [ProfileB.apiTts, h]
    · by_cases ht : jsTruthy text
      · simp [ProfileB.apiTts, ht, h]
      · simp [ProfileB.apiTts, ht]

/-- Witness for C6: a missing `text` in profile A and a 2001-character
`text` in profile B are both answered 400 with zero network calls. -/
theorem oversized_or_missing_text_rejected_witness :
    ((ProfileA.apiTts none (fun _ => .ok [])).1.status = 400 ∧
     (ProfileA.apiTts none (fun _ => .ok [])).1.success = false ∧
     (ProfileA.apiTts none (fun _ => .ok [])).2 = 0) ∧
    ((ProfileB.apiTts (some (String.mk (List.replicate 2001 'a')))
        (.ok "tok") (fun _ _ => .ok [])).1.status = 400 ∧
     (ProfileB.apiTts (some (String.mk (List.replicate 2001 'a')))
        (.ok "tok") (fun _ _ => .ok [])).1.success = false ∧
     (ProfileB.apiTts (some (String.mk (List.replicate 2001 'a')))
        (.ok "tok") (fun _ _ => .ok [])).2 = 0) :=
  ⟨oversized_or_missing_text_rejected_without_network.1 none (fun _ => .ok [])
     (Or.inl rfl),
   oversized_or_missing_text_rejected_without_network.2
     (some (String.mk (List.replicate 2001 'a'))) (.ok "tok") (fun _ _ => .ok [])
     (Or.inr (by
       simp only [jsOrOpt]
       rw [if_neg (by simp)]
       show 2000 < (List.replicate 2001 'a').length
       rw [List.length_replicate]
       decide))⟩

/-- C7: in both profiles, a task-failed control event on a not-yet-settled
session — in any state, in particular after binary chunks have already been
appended — rejects the promise with the backend-supplied error message, or
the generic message when that field is absent or empty.  The settlement is
an error, so the partially received `audioChunks` are never returned. -/
theorem task_failed_rejects_and_discards_partial_audio :
    (∀ (a : ProfileA.Args) (st : ProfileA.State) (em : Option String),
       st.isSettled = false → st.settled = none →
       (ProfileA.synthesizeSpeechStep a st
          (.message (.text (some ⟨some "task-failed", em⟩)))).settled
         = some (.error (jsOrOpt em "语音合成失败"))) ∧
    (∀ (b : ProfileB.Args) (st : ProfileB.State) (sm : Option String),
       st.settled = none →
       (ProfileB.synthesizeSpeechStep b st
          (.message (.text (some ⟨some "TaskFailed", sm⟩)))).settled
         = some (.error (jsOrOpt sm "语音合成失败"))) := by
  constructor
  · intro a st em h1 h2
    simp [ProfileA.synthesizeSpeechStep, h1, h2, promiseSettle]
  · intro b st sm h2
    simp [ProfileB.synthesizeSpeechStep, h2, promiseSettle]

/-- Witness for C7 on sessions that already hold two audio chunks: the
backend message is surfaced when present, the generic one when absent, and
the chunks are discarded. -/
theorem task_failed_rejects_witness :
    (ProfileA.synthesizeSpeechStep argsExA
       { ProfileA.init with audioChunks := [[1], [2, 3]] }
       (.message (.text (some ⟨some "task-failed", some "quota exceeded"⟩)))).settled
      = some (.error "quota exceeded")
    ∧ (ProfileB.synthesizeSpeechStep argsExB
       { ProfileB.init with audioChunks := [[1], [2, 3]] }
       (.message (.text (some ⟨some "TaskFailed", none⟩)))).settled
      = some (.error "语音合成失败") :=
  ⟨task_failed_rejects_and_discards_partial_audio.1 argsExA
     { ProfileA.init with audioChunks := [[1], [2, 3]] }
     (some "quota exceeded") rfl rfl,
   task_failed_rejects_and_discards_partial_audio.2 argsExB
     { ProfileB.init with audioChunks := [[1], [2, 3]] } none rfl⟩

/-- C8 counterexample: the profile-B `StartSynthesis` message
(src/server.js lines 119-138) carries no `input` field at all in its
payload, so the start message of a profile-B invocation does not contain
the empty-input placeholder. -/
theorem start_message_has_no_input_in_profileB :
    Json.lookup "input" (ProfileB.startSynthesisPayload "" "") = none := rfl

/-- C8 amended: the empty-input placeholder is a profile-A requirement.  In
profile A the `run-task` start message always carries `input: {}` in its
payload, whatever the voice/model/format arguments (it is sent, never
omitted); the profile-B `StartSynthesis` start message has no `input`
field in its payload at all. -/
theorem run_task_always_carries_empty_input :
    (∀ voice model format : String,
       Json.lookup "input" (ProfileA.runTaskPayload voice model format)
         = some (Json.obj [])) ∧
    (∀ voice format : String,
       Json.lookup "input" (ProfileB.startSynthesisPayload voice format)
         = none) :=
  ⟨fun _ _ _ => rfl, fun _ _ => rfl⟩

/-- C9: for the cached credential provider `getNlsToken` in src/server.js:
any two calls whose `now` falls before the cached expiry (and while a
truthy token id is cached) return the cached token with no refresh call
and leave the cache unchanged; a refresh stores an expiry of
`ExpireTime * 1000 - 60000`, i.e. 60 seconds earlier than the
backend-supplied expiry; and a call at or after the cached (already
reduced) expiry issues a refresh call. -/
theorem token_cache_reuse_and_early_expiry :
    (∀ (cache : ProfileB.TokenCache) (n1 n2 : Int) (r1 r2 : ProfileB.TokenResp),
       jsTruthy cache.id = true → n1 < cache.expireTime → n2 < cache.expireTime →
       ProfileB.getNlsToken cache n1 r1 = .ok (jsOrOpt cache.id "", cache, false) ∧
       ProfileB.getNlsToken cache n2 r2 = .ok (jsOrOpt cache.id "", cache, false)) ∧
    (∀ (cache : ProfileB.TokenCache) (now : Int) (tid : String) (exp : Int),
       ¬(jsTruthy cache.id = true ∧ now < cache.expireTime) →
       ProfileB.getNlsToken cache now (.token tid exp)
         = .ok (tid, { id := some tid, expireTime := exp * 1000 - 60000 }, true)) ∧
    (∀ (cache : ProfileB.TokenCache) (now : Int) (tid : String) (exp : Int),
       cache.expireTime ≤ now →
       ProfileB.getNlsToken cache now (.token tid exp)
         = .ok (tid, { id := some tid, expireTime := exp * 1000 - 60000 }, true)) := by
  refine ⟨fun cache n1 n2 r1 r2 hid h1 h2 => ?_, fun cache now tid exp h => ?_,
    fun cache now tid exp h => ?_⟩
  · constructor
    · simp [ProfileB.getNlsToken, hid, h1]
    · simp [ProfileB.getNlsToken, hid, h2]
  · simp only [ProfileB.getNlsToken]
    rw [if_neg h]
  · simp only [ProfileB.getNlsToken]
    rw [if_neg]
    intro hc
    exact absurd hc.2 (not_lt.mpr h)

/-- Witness for C9: with a cached token valid until 1000, two calls at 400
and 500 reuse it without refreshing; a cold cache refreshes and stores the
backend expiry of 120 seconds as 60000 ms; a call exactly at the reduced
expiry refreshes again. -/
theorem token_cache_reuse_witness :
    (ProfileB.getNlsToken { id := some "tok", expireTime := 1000 } 400 (.token "new" 120)
       = .ok ("tok", { id := some "tok", expireTime := 1000 }, false) ∧
     ProfileB.getNlsToken { id := some "tok", expireTime := 1000 } 500 (.token "new" 120)
       = .ok ("tok", { id := some "tok", expireTime := 1000 }, false)) ∧
    ProfileB.getNlsToken { id := none, expireTime := 0 } 500 (.token "new" 120)
      = .ok ("new", { id := some "new", expireTime := 120 * 1000 - 60000 }, true) ∧
    ProfileB.getNlsToken { id := some "tok", expireTime := 1000 } 1000 (.token "new" 120)
      = .ok ("new", { id := some "new", expireTime := 120 * 1000 - 60000 }, true) :=
  ⟨token_cache_reuse_and_early_expiry.1
     { id := some "tok", expireTime := 1000 } 400 500 (.token "new" 120)
     (.token "new" 120) rfl (by decide) (by decide),
   token_cache_reuse_and_early_expiry.2.1
     { id := none, expireTime := 0 } 500 "new" 120 (fun hc => Bool.noConfusion hc.1),
   token_cache_reuse_and_early_expiry.2.2
     { id := some "tok", expireTime := 1000 } 1000 "new" 120 (by decide)⟩

/-- C10: in profile A, when neither the caller-supplied `apikey` nor the
`DASHSCOPE_API_KEY` environment variable is truthy, `synthesizeSpeech`
rejects at once with the missing-credential message; the `rejectedNoKey`
outcome of `synthInit` is returned before any `new WebSocket(...)` is
constructed, so no connection is opened. -/
theorem missing_credential_rejects_before_connecting :
    ∀ userApiKey envKey : Option String,
      jsTruthy userApiKey = false → jsTruthy envKey = false →
      ProfileA.synthInit userApiKey envKey
        = .rejectedNoKey "缺少 apikey 参数，且未设置 DASHSCOPE_API_KEY 环境变量" := by
  intro u e hu he
  simp [ProfileA.synthInit, jsOrOptOpt, hu, he]

/-- Witness for C10: no caller key and an empty environment variable (both
falsy in JavaScript) reject with the missing-credential message. -/
theorem missing_credential_rejects_witness :
    ProfileA.synthInit none (some "")
      = .rejectedNoKey "缺少 apikey 参数，且未设置 DASHSCOPE_API_KEY 环境变量" :=
  missing_credential_rejects_before_connecting none (some "") rfl rfl
